import Mathlib

/-!
# Verification of the Prusa-Link serial/printer core

Shallow embedding of the parts of the Prusa-Link repository that the
specification's claims are about:

* `old_buddy/informers/telemetry_gatherer.py` — the telemetry handlers;
* `old_buddy/printer/printer.py` — the state-changed handler;
* `old_buddy/connect_communication.py` — `Dictable.to_dict`;
* `prusa/link/printer_adapter/input_output/serial/serial.py` — the
  transport (reconnect loop, write loop, reader loop, stop);
* `prusa/link/printer_adapter/command_handlers/start_print.py` — the
  "start print" command handler.

Stateful code is embedded as explicit state-passing functions; thread
loops become recursive functions over an explicit, finite environment
list that supplies, for each iteration, the value the loop would read
from the world (the `running` flag at the loop check, the outcome of an
I/O call).  An exhausted environment is read as "the running flag is
false", so every function is total.  Side effects (signals, log calls,
forwarded lines, emitted events) are collected into a trace.
-/

namespace OldBuddy

/-- Printer states, from `old_buddy.structures.model_classes.States`
(the module itself is not in the sources; the state names are those the
spec lists and the sources use: READY, BUSY, PRINTING plus the others). -/
inductive States where
  | READY
  | BUSY
  | PRINTING
  | PAUSED
  | FINISHED
  | ERROR
  | ATTENTION
  | STOPPED
  deriving DecidableEq, Repr

/-- The telemetry fields the claims are about, each optional exactly as
in the Python model class where every field starts as `None`.  Numeric
fields parsed with `int(...)` are embedded as `Int`. -/
structure Telemetry where
  progress : Option Int := none
  printing_time : Option Int := none
  time_estimated : Option Int := none
  flow : Option Int := none
  speed : Option Int := none
  deriving DecidableEq, Repr

/-- Source: `TelemetryGatherer.progress_handler`: parse the capture group as an
int and store it only when `0 <= progress <= 100`. -/
def progress_handler (progress : Int) (t : Telemetry) : Telemetry :=
  if 0 ≤ progress ∧ progress ≤ 100 then { t with progress := some progress } else t

/-- Source: `TelemetryGatherer.flow_rate_handler`: store the parsed flow only
when `0 <= flow <= 100`. -/
def flow_rate_handler (flow : Int) (t : Telemetry) : Telemetry :=
  if 0 ≤ flow ∧ flow ≤ 100 then { t with flow := some flow } else t

/-- Source: `TelemetryGatherer.speed_multiplier_handler`: store the parsed speed
only when `0 <= speed <= 100`. -/
def speed_multiplier_handler (speed : Int) (t : Telemetry) : Telemetry :=
  if 0 ≤ speed ∧ speed ≤ 100 then { t with speed := some speed } else t

/-- Source: `TelemetryGatherer.time_remaining_handler`: `mins_remaining` is
`int(groups[1])` (the silent-mode minutes capture group);
`secs_remaining = mins_remaining * 60`; the field is stored only when
`mins_remaining >= 0`. -/
def time_remaining_handler (mins_remaining : Int) (t : Telemetry) : Telemetry :=
  let secs_remaining := mins_remaining * 60
  if mins_remaining ≥ 0 then { t with time_estimated := some secs_remaining } else t

/-- Source: `TelemetryGatherer.state_changed_handler`: when the sender's
`current_state` is PRINTING and its `last_state` is in {READY, BUSY},
reset `progress` and `printing_time` to 0; otherwise do nothing. -/
def state_changed_handler (current_state last_state : States) (t : Telemetry) : Telemetry :=
  if current_state = States.PRINTING ∧
      (last_state = States.READY ∨ last_state = States.BUSY) then
    { t with progress := some 0, printing_time := some 0 }
  else t

/-- The event `Printer.state_changed` always emits at the end:
a STATE_CHANGED notice carrying the state name and the command id. -/
structure StateChangedEvent where
  state : States
  command_id : Option Nat
  deriving DecidableEq, Repr

/-- Source: `Printer.state_changed` (printer.py): same telemetry reset as the
gatherer's handler, applied to `additional_telemetry`, followed by
emitting a STATE_CHANGED event. -/
def printer_state_changed (current_state last_state : States)
    (command_id : Option Nat) (t : Telemetry) : Telemetry × StateChangedEvent :=
  let t' :=
    if current_state = States.PRINTING ∧
        (last_state = States.READY ∨ last_state = States.BUSY) then
      { t with progress := some 0, printing_time := some 0 }
    else t
  (t', { state := current_state, command_id := command_id })

/-- A field holding a percentage is healthy when unset or within 0..100. -/
def pctOk : Option Int → Prop
  | none => True
  | some v => 0 ≤ v ∧ v ≤ 100

instance (o : Option Int) : Decidable (pctOk o) := by
  cases o <;> simp [pctOk] <;> infer_instance

/-- The C10 invariant over a telemetry record: progress, flow and speed
are each unset or in 0..100. -/
def pctInvariant (t : Telemetry) : Prop :=
  pctOk t.progress ∧ pctOk t.flow ∧ pctOk t.speed

instance (t : Telemetry) : Decidable (pctInvariant t) := by
  unfold pctInvariant; infer_instance

/-!
## `Dictable.to_dict` (connect_communication.py)

A Python object reachable by `to_dict` is embedded as a `PyVal`:
`vnone` is `None`, `prim s` is any other non-`Dictable`, non-method
value (its payload does not matter to the claims, so a string stands for
it), `method` is a bound method (the source tests
`type(member).__name__ != "method"`), and `obj fields` is a `Dictable`
instance given by its `dir()` members in order, each name paired with
the result of `getattr`.  `dir()` lists each name once.  The output
dictionary is also a `List (String × PyVal)`, with `obj` re-used for a
nested dictionary value.
-/

inductive PyVal where
  | vnone : PyVal
  | prim : String → PyVal
  | method : PyVal
  | obj : List (String × PyVal) → PyVal

/-- Source: `member is None`. -/
def PyVal.isNone : PyVal → Bool
  | PyVal.vnone => true
  | _ => false

/-- Source: `type(member).__name__ == "method"`. -/
def PyVal.isMethod : PyVal → Bool
  | PyVal.method => true
  | _ => false

/-- Source: `name.startswith(chr(95) + chr(95))`: the member name begins with two
underscores. -/
def isDunder (s : String) : Bool :=
  match s.data with
  | '_' :: '_' :: _ => true
  | _ => false

/-- Source: `Dictable.to_dict`, faithfully including its two independent `if`
statements: a member enters the output when its name is not dunder, it
is not a method, and it is not `None`; and independently a member that
is a `Dictable` is (re-)assigned as its own recursive `to_dict` — even
when the first test failed for it. -/
def to_dict : List (String × PyVal) → List (String × PyVal)
  | [] => []
  | (name, PyVal.obj fields) :: rest =>
      (name, PyVal.obj (to_dict fields)) :: to_dict rest
  | (name, v) :: rest =>
      if !isDunder name && !v.isMethod && !v.isNone then
        (name, v) :: to_dict rest
      else
        to_dict rest

/-- The members of a `Telemetry`/`Event`/`PrinterInfo` object: dunder
members (those `dir` adds from `object`, such as `__class__` or
`__doc__`) are never `Dictable` instances, recursively.  The three model
classes in the source never store a `Dictable` under a dunder name. -/
def dunderClean : List (String × PyVal) → Prop
  | [] => True
  | (name, PyVal.obj fields) :: rest =>
      ¬ isDunder name ∧ dunderClean fields ∧ dunderClean rest
  | (_, PyVal.vnone) :: rest => dunderClean rest
  | (_, PyVal.prim _) :: rest => dunderClean rest
  | (_, PyVal.method) :: rest => dunderClean rest

instance instDecidableDunderClean : ∀ l, Decidable (dunderClean l)
  | [] => by unfold dunderClean; infer_instance
  | (name, PyVal.vnone) :: rest => by
      unfold dunderClean; exact instDecidableDunderClean rest
  | (name, PyVal.prim s) :: rest => by
      unfold dunderClean; exact instDecidableDunderClean rest
  | (name, PyVal.method) :: rest => by
      unfold dunderClean; exact instDecidableDunderClean rest
  | (name, PyVal.obj fields) :: rest => by
      unfold dunderClean
      have h1 := instDecidableDunderClean fields
      have h2 := instDecidableDunderClean rest
      infer_instance

/-- A produced dictionary contains, recursively, no `None` value and no
method value (whatever the keys). -/
def noNoneNoMethod : List (String × PyVal) → Prop
  | [] => True
  | (_, PyVal.obj fields) :: rest => noNoneNoMethod fields ∧ noNoneNoMethod rest
  | (_, PyVal.prim _) :: rest => noNoneNoMethod rest
  | (_, PyVal.vnone) :: _ => False
  | (_, PyVal.method) :: _ => False

/-- A produced dictionary contains, recursively, no dunder key. -/
def noDunderKey : List (String × PyVal) → Prop
  | [] => True
  | (name, PyVal.obj fields) :: rest =>
      ¬ isDunder name ∧ noDunderKey fields ∧ noDunderKey rest
  | (name, PyVal.prim _) :: rest => ¬ isDunder name ∧ noDunderKey rest
  | (name, PyVal.vnone) :: rest => ¬ isDunder name ∧ noDunderKey rest
  | (name, PyVal.method) :: rest => ¬ isDunder name ∧ noDunderKey rest

/-- A concrete `Event`-like object used as a witness input: its `dir()`
members include the `object` dunders, the bound `to_dict` method, a
`None`-valued field, and a nested `Dictable` under `values` as
`Printer.respond_with_info` builds one. -/
def eventObj : List (String × PyVal) :=
  [("__class__", PyVal.prim "type"),
   ("__doc__", PyVal.vnone),
   ("command_id", PyVal.prim "7"),
   ("event", PyVal.prim "STATE_CHANGED"),
   ("reason", PyVal.vnone),
   ("to_dict", PyVal.method),
   ("values", PyVal.obj
      [("__class__", PyVal.prim "type"),
       ("sn", PyVal.vnone),
       ("state", PyVal.prim "READY"),
       ("to_dict", PyVal.method)])]

end OldBuddy

namespace PrusaLink

/-!
## The `Serial` transport (serial.py)

The transport's three loops are embedded as trace-producing functions
over an explicit environment.  Each environment entry supplies what one
loop iteration reads from the world: the value of `self.running` at the
`while` check and the outcome of the I/O call made in that iteration.
An exhausted environment is read as "`self.running` is false", keeping
every function total; a loop that the world lets run forever with
failing I/O never terminates in the source, and correspondingly consumes
every environment, so nothing is lost by the finite environments.
Emitted signals, log calls, sleeps, I/O attempts and forwarded lines are
recorded in order in the trace.
-/

/-- One observable step of the transport. -/
inductive SerialEvt where
  /-- Source: `self.failed_signal.send(self)` -/
  | failedSig : SerialEvt
  /-- Source: `self.renewed_signal.send(self)` -/
  | renewedSig : SerialEvt
  /-- one `self._reopen()` call and whether it succeeded
  (raised `SerialException`/`FileNotFoundError` when `ok` is false) -/
  | openAttempt (ok : Bool) : SerialEvt
  /-- Source: `log.warning("Opening of the serial port ... failed. Retrying...")` -/
  | logRetry : SerialEvt
  /-- Source: `sleep(SERIAL_REOPEN_TIMEOUT)` -/
  | backoffSleep : SerialEvt
  /-- entering `with self.write_lock` -/
  | lockAcquire : SerialEvt
  /-- leaving `with self.write_lock` -/
  | lockRelease : SerialEvt
  /-- one `self.serial.write(message)` call and whether it raised -/
  | writeAttempt (message : List Nat) (ok : Bool) : SerialEvt
  /-- Source: `log.error("Serial error when sending ...")` -/
  | logWriteError : SerialEvt
  /-- Source: `log.error("Failed when reading from the printer. ...")` -/
  | logReadError : SerialEvt
  /-- Source: `log.error("Failed decoding a message ...")` -/
  | logDecodeError : SerialEvt
  /-- Source: `self.serial_reader.decide(line)` -/
  | forward (line : String) : SerialEvt
  deriving DecidableEq, Repr

/-- An environment entry for one iteration of the `_renew_serial_connection`
retry loop: the `self.running` value read at the `while` check, and
whether the `self._reopen()` attempted in that iteration succeeds. -/
abbrev RenewEnv := List (Bool × Bool)

/-- The `while self.running: try self._reopen() ...` loop inside
`Serial._renew_serial_connection`.  On success (`else: break`) the loop
stops; on failure it logs, sleeps the fixed backoff and retries; when
`self.running` is read as false the loop body is never entered again. -/
def renewLoop : RenewEnv → List SerialEvt
  | [] => []
  | (running, ok) :: rest =>
      if !running then []
      else if ok then [SerialEvt.openAttempt true]
      else
        SerialEvt.openAttempt false :: SerialEvt.logRetry ::
          SerialEvt.backoffSleep :: renewLoop rest

/-- Source: `Serial._renew_serial_connection`: send `failed_signal`, run the
retry loop, then send `renewed_signal` (unconditionally — also when the
loop was left because `self.running` became false). -/
def renew_serial_connection (env : RenewEnv) : List SerialEvt :=
  SerialEvt.failedSig :: (renewLoop env ++ [SerialEvt.renewedSig])

/-- Did the retry loop exit through a successful `_reopen` (rather than
through `self.running` turning false / the environment running out)? -/
def renewSucceeds : RenewEnv → Bool
  | [] => false
  | (running, ok) :: rest => running && (ok || renewSucceeds rest)

/-- An environment entry for one iteration of the `while not sent and
self.running` loop in `Serial.write`: the `self.running` value read at
the check, whether `self.serial.write(message)` raises, and — when it
does raise — the environment for the inner
`_renew_serial_connection` call. -/
abbrev WriteEnv := List (Bool × Bool × RenewEnv)

/-- The retry loop of `Serial.write` (the part inside
`with self.write_lock`).  Returns the trace and whether the message was
sent. -/
def writeLoop (message : List Nat) : WriteEnv → List SerialEvt × Bool
  | [] => ([], false)
  | (running, ok, renewEnv) :: rest =>
      if !running then ([], false)
      else if ok then ([SerialEvt.writeAttempt message true], true)
      else
        let (trace, sent) := writeLoop message rest
        (SerialEvt.writeAttempt message false :: SerialEvt.logWriteError ::
          (renew_serial_connection renewEnv ++ trace), sent)

/-- The write loop was left through the `while ... and self.running`
check reading false (or the environment running out), rather than
through a successful OS write. -/
def writeStoppedByFlag : WriteEnv → Bool
  | [] => true
  | (running, ok, _) :: rest => !running || (!ok && writeStoppedByFlag rest)

/-- Source: `Serial.write`: when `self.serial` is unset (`if not self.serial:
return`) nothing happens; otherwise the write lock is taken and the
retry loop runs under it.  Returns the trace and whether the message was
accepted by the OS. -/
def write (message : List Nat) (serialSet : Bool) (env : WriteEnv) :
    List SerialEvt × Bool :=
  if !serialSet then ([], false)
  else
    (SerialEvt.lockAcquire ::
      ((writeLoop message env).1 ++ [SerialEvt.lockRelease]),
     (writeLoop message env).2)

/-- What one iteration of the reader loop gets from
`self.serial.readline()` and the decode: a `SerialException`, a
`UnicodeDecodeError`, or a successfully decoded line. -/
inductive ReadOutcome where
  | ioError (renewEnv : RenewEnv) : ReadOutcome
  | decodeError : ReadOutcome
  | line (s : String) : ReadOutcome
  deriving DecidableEq, Repr

/-- Python `str.strip()` with no argument removes leading and trailing
ASCII whitespace (codes 9–13 and 32; the line was decoded as ASCII so no
other whitespace can occur). -/
def pyIsSpace (c : Char) : Bool :=
  c = ' ' || c = '\t' || c = '\n' || c = '\x0b' || c = '\x0c' || c = '\r'

/-- Source: the `.strip()` in `raw_line.decode("ASCII").strip()`. -/
def pyStrip (s : String) : String :=
  ⟨(s.data.dropWhile pyIsSpace).reverse.dropWhile pyIsSpace |>.reverse⟩

/-- The body of one `_read_continually` iteration, after the `while
self.running` check passed. -/
def readIter : ReadOutcome → List SerialEvt
  | ReadOutcome.ioError renewEnv =>
      SerialEvt.logReadError :: SerialEvt.lockAcquire ::
        (renew_serial_connection renewEnv ++ [SerialEvt.lockRelease])
  | ReadOutcome.decodeError => [SerialEvt.logDecodeError]
  | ReadOutcome.line s =>
      if pyStrip s = "" then [] else [SerialEvt.forward (pyStrip s)]

/-- Source: `Serial._read_continually`: the reader-thread loop. -/
def read_continually : List (Bool × ReadOutcome) → List SerialEvt
  | [] => []
  | (running, outcome) :: rest =>
      if !running then []
      else readIter outcome ++ read_continually rest

/-- The transport state the claims about `Serial.stop` talk about. -/
structure SerialState where
  running : Bool
  serialOpen : Bool
  readThreadJoined : Bool
  deriving DecidableEq, Repr

/-- Source: `Serial.stop`: clear `self.running`, close `self.serial`, join
`self.read_thread`. -/
def stop (s : SerialState) : SerialState :=
  { s with running := false, serialOpen := false, readThreadJoined := true }

/-!
## The `StartPrint` command handler (start_print.py)

`StartPrint._run_command` is embedded as a function from the state it
reads (the state manager's `printing_state` and `override_state`, the
caller's `command_id` and the parts of the path argument) and from the
response the printer gives to the `M23` instruction, to the ordered list
of effects the handler performs.  `Path(file_path_string).parts` is
supplied directly as a list of strings (`"/"` first for an absolute
path), exactly as `pathlib` would split the argument.
-/

/-- Source: `prusa.connect.printer.const.State` (not in the sources; the member
names are those the sources and the spec use). -/
inductive State where
  | READY
  | BUSY
  | PRINTING
  | PAUSED
  | FINISHED
  | ERROR
  | ATTENTION
  | STOPPED
  deriving DecidableEq, Repr

/-- Source: the f-string formatting of a state in the failure message: the printed name of a state. -/
def State.describe : State → String
  | State.READY => "State.READY"
  | State.BUSY => "State.BUSY"
  | State.PRINTING => "State.PRINTING"
  | State.PAUSED => "State.PAUSED"
  | State.FINISHED => "State.FINISHED"
  | State.ERROR => "State.ERROR"
  | State.ATTENTION => "State.ATTENTION"
  | State.STOPPED => "State.STOPPED"

/-- The slice of the state manager `_run_command` reads. -/
structure StateManagerView where
  /-- the printing sub-state; `None` unless a print is active -/
  printing_state : Option String
  /-- the override (Error/Attention) state, `None` in normal operation -/
  override_state : Option State
  /-- the base state reported when no override is set -/
  current_state : State
  deriving DecidableEq, Repr

/-- Modelled from the spec: `StateManager.get_state` (the state-manager
module is not in the sources) — "returns `override_state` if set, else
`current_state`". -/
def get_state (sm : StateManagerView) : State :=
  sm.override_state.getD sm.current_state

/-- An effect `_run_command` performs, in order. -/
inductive CmdEff where
  /-- Source: `self.failed(reason)`: a rejection event carrying the reason -/
  | rejected (reason : String) : CmdEff
  /-- Source: `self.state_manager.expect_change(StateChange(command_id,
  to_states=\x7bState.PRINTING: Source.CONNECT\x7d))` -/
  | expectChange (command_id : Nat) (target : State) : CmdEff
  /-- Source: `self.do_matchable(gcode, OPEN_RESULT_REGEX)`: enqueue and wait -/
  | doMatchable (gcode : String) : CmdEff
  /-- Source: `self.do_instruction(gcode)`: enqueue and wait -/
  | doInstruction (gcode : String) : CmdEff
  /-- Source: `self.file_printer.print(os_path)` via `_start_file_print` -/
  | filePrint (path : String) : CmdEff
  /-- Source: `self.state_manager.printing()` -/
  | setPrinting : CmdEff
  /-- Source: `self.state_manager.stop_expecting_change()` -/
  | stopExpecting : CmdEff
  deriving DecidableEq, Repr

/-- Source: `str.lower()` restricted to ASCII letters (file names on the SD card
are ASCII). -/
def pyLower (s : String) : String :=
  ⟨s.data.map fun c =>
    if 'A' ≤ c ∧ c ≤ 'Z' then Char.ofNat (c.toNat + 32) else c⟩

/-- Source: `str(Path(*parts))`: re-join path parts, keeping a leading root. -/
def joinParts : List String → String
  | [] => "."
  | "/" :: rest => "/" ++ String.intercalate "/" rest
  | parts => String.intercalate "/" parts

/-- The result of `instruction.match()` for the `M23` instruction: `none`
when the response did not match `OPEN_RESULT_REGEX`, otherwise the list
of captured groups (each possibly empty).  `OPEN_RESULT_REGEX` always
captures at least one group, so `groups()[0]` is read as `head?`. -/
abbrev M23Match := Option (List (Option String))

/-- The test `if not match or match.groups()[0] is None` in
`StartPrint._load_file`: the load completion failed. -/
def openFailed : M23Match → Bool
  | none => true
  | some groups =>
      match groups.head? with
      | some (some _) => false
      | _ => true

/-- Source: `StartPrint._run_command`, returning the effect trace, whether
`self.failed` aborted the handler, and `none` when the handler raises
`IndexError` reading `parts[1]`.  `self.failed` is modelled from the
spec (the `CommandHandler` base class is not in the sources): "on each
instruction's MatchFailed/TimedOut, emit a rejection/acceptance event
and abort further steps for this command". -/
def run_command_inner (sm : StateManagerView) (command_id : Nat)
    (parts : List String) (m23 : M23Match) : Option (List CmdEff × Bool) :=
  if sm.printing_state.isSome then
    some ([CmdEff.rejected "Already printing"], true)
  else if sm.override_state.isSome then
    some ([CmdEff.rejected
      ("Cannot print in " ++ (get_state sm).describe ++ " state.")], true)
  else
    let pre := [CmdEff.expectChange command_id State.PRINTING]
    match parts[1]? with
    | none => none
    | some second =>
        if second = "SD Card" then
          let file_name := pyLower (joinParts (parts.drop 2))
          let loadTrace := [CmdEff.doMatchable ("M23 " ++ file_name)]
          if openFailed m23 then
            some (pre ++ loadTrace ++
              [CmdEff.rejected
                ("Wrong file name, or bad file. File name: " ++ file_name)],
              true)
          else
            some (pre ++ loadTrace ++
              [CmdEff.doInstruction "M24", CmdEff.setPrinting,
                CmdEff.stopExpecting], false)
        else
          some (pre ++
            [CmdEff.filePrint (joinParts parts), CmdEff.setPrinting,
              CmdEff.stopExpecting], false)

/-- The handler as run by the command runner.  Modelled from the spec:
"every command ends by clearing its expectation even on failure (scoped
acquisition/release discipline)" — when `self.failed` aborted the
handler, the runner still calls `stop_expecting_change()`. -/
def run_command (sm : StateManagerView) (command_id : Nat)
    (parts : List String) (m23 : M23Match) : Option (List CmdEff) :=
  (run_command_inner sm command_id parts m23).map fun (trace, aborted) =>
    if aborted then trace ++ [CmdEff.stopExpecting] else trace

end PrusaLink

/-!
## Theorems

Helper lemmas first, then one theorem per claim (with its witness or
counterexample).
-/

open OldBuddy PrusaLink

/- ### Helper lemmas for `Dictable.to_dict` -/

theorem to_dict_noNoneNoMethod : ∀ l, noNoneNoMethod (to_dict l) := by
  intro l
  induction l using to_dict.induct with
  | case1 => simp [to_dict, noNoneNoMethod]
  | case2 name fields rest ih1 ih2 =>
      simp only [to_dict, noNoneNoMethod]
      exact ⟨ih1, ih2⟩
  | case3 name v rest hobj hcond ih =>
      cases v with
      | vnone => simp [PyVal.isNone] at hcond
      | method => simp [PyVal.isMethod] at hcond
      | prim s =>
          simp only [to_dict, hcond, if_pos]
          simpa [noNoneNoMethod] using ih
      | obj fields => exact absurd rfl (hobj fields)
  | case4 name v rest hobj hcond ih =>
      cases v with
      | vnone => simpa [to_dict, PyVal.isNone] using ih
      | method => simpa [to_dict, PyVal.isMethod] using ih
      | prim s => simpa [to_dict, hcond] using ih
      | obj fields => exact absurd rfl (hobj fields)

theorem to_dict_noDunderKey : ∀ l, dunderClean l → noDunderKey (to_dict l) := by
  intro l
  induction l using to_dict.induct with
  | case1 => simp [to_dict, noDunderKey]
  | case2 name fields rest ih1 ih2 =>
      intro hc
      rw [dunderClean] at hc
      simp only [to_dict, noDunderKey]
      exact ⟨hc.1, ih1 hc.2.1, ih2 hc.2.2⟩
  | case3 name v rest hobj hcond ih =>
      intro hc
      cases v with
      | vnone => simp [PyVal.isNone] at hcond
      | method => simp [PyVal.isMethod] at hcond
      | obj fields => exact absurd rfl (hobj fields)
      | prim s =>
          rw [dunderClean] at hc
          simp only [to_dict, hcond, if_pos]
          rw [noDunderKey]
          have hnd : isDunder name = false := by
            simp only [Bool.and_eq_true, Bool.not_eq_true'] at hcond
            exact hcond.1.1
          exact ⟨by simp [hnd], ih hc⟩
  | case4 name v rest hobj hcond ih =>
      intro hc
      cases v with
      | vnone =>
          rw [dunderClean] at hc
          simpa [to_dict, PyVal.isNone] using ih hc
      | method =>
          rw [dunderClean] at hc
          simpa [to_dict, PyVal.isMethod] using ih hc
      | prim s =>
          rw [dunderClean] at hc
          simpa [to_dict, hcond] using ih hc
      | obj fields => exact absurd rfl (hobj fields)

theorem to_dict_maps_obj : ∀ l (name : String) (fields : List (String × PyVal)),
    (name, PyVal.obj fields) ∈ l →
    (name, PyVal.obj (to_dict fields)) ∈ to_dict l := by
  intro l
  induction l using to_dict.induct with
  | case1 => intro name fields h; simp at h
  | case2 name fields rest ih1 ih2 =>
      intro n f hmem
      rcases List.mem_cons.mp hmem with heq | hmv
      · simp only [Prod.mk.injEq] at heq
        obtain ⟨rfl, hf⟩ := heq
        cases hf
        simp only [to_dict]
        exact List.mem_cons_self _ _
      · simp only [to_dict]
        exact List.mem_cons_of_mem _ (ih2 n f hmv)
  | case3 name v rest hobj hcond ih =>
      intro n f hmem
      rcases List.mem_cons.mp hmem with heq | hmv
      · simp only [Prod.mk.injEq] at heq
        exact absurd heq.2.symm (fun h => hobj f h)
      · simp only [to_dict, hcond, if_pos]
        exact List.mem_cons_of_mem _ (ih n f hmv)
  | case4 name v rest hobj hcond ih =>
      intro n f hmem
      rcases List.mem_cons.mp hmem with heq | hmv
      · simp only [Prod.mk.injEq] at heq
        exact absurd heq.2.symm (fun h => hobj f h)
      · cases v with
        | vnone => simpa [to_dict, PyVal.isNone] using ih n f hmv
        | method => simpa [to_dict, PyVal.isMethod] using ih n f hmv
        | prim s => simpa [to_dict, hcond] using ih n f hmv
        | obj fields => exact absurd rfl (hobj fields)

/- ### Claim theorems -/

/-- Claim C6: Whenever the state machine publishes a transition whose new
state is Printing and whose previous state was Ready or Busy, the
telemetry progress and printing-time fields are reset to zero; a
transition into Printing from any other previous state, or into any
other state, leaves those telemetry fields unchanged by the transition
handler.  (Both cited handlers:
`TelemetryGatherer.state_changed_handler` and `Printer.state_changed`.) -/
theorem printing_transition_resets_progress
    (current last : States) (cid : Option Nat) (t : Telemetry) :
    (current = States.PRINTING ∧ (last = States.READY ∨ last = States.BUSY) →
      (state_changed_handler current last t).progress = some 0 ∧
      (state_changed_handler current last t).printing_time = some 0 ∧
      ((printer_state_changed current last cid t).1).progress = some 0 ∧
      ((printer_state_changed current last cid t).1).printing_time = some 0) ∧
    (¬ (current = States.PRINTING ∧
        (last = States.READY ∨ last = States.BUSY)) →
      state_changed_handler current last t = t ∧
      (printer_state_changed current last cid t).1 = t) := by
  constructor
  · intro h
    simp [state_changed_handler, printer_state_changed, h]
  · intro h
    simp [state_changed_handler, printer_state_changed, h]

theorem printing_transition_resets_progress_witness :
    (state_changed_handler States.PRINTING States.READY
      { progress := some 55, printing_time := some 1200 }).progress = some 0 ∧
    state_changed_handler States.FINISHED States.PRINTING
      { progress := some 55, printing_time := some 1200 } =
      { progress := some 55, printing_time := some 1200 } :=
  ⟨((printing_transition_resets_progress States.PRINTING States.READY none
      { progress := some 55, printing_time := some 1200 }).1
      ⟨rfl, Or.inl rfl⟩).1,
   ((printing_transition_resets_progress States.FINISHED States.PRINTING none
      { progress := some 55, printing_time := some 1200 }).2
      (by simp)).1⟩

/-- Claim C8: For every time-remaining line matched by the telemetry
gatherer, the handler reads the silent-mode minutes capture group,
converts it to seconds by multiplying by exactly 60, and stores the
result in the estimated-time telemetry field if and only if the parsed
minutes value is non-negative (a negative value leaves the field, and
the whole record, unchanged). -/
theorem time_remaining_stores_seconds (m : Int) (t : Telemetry) :
    (0 ≤ m →
      (time_remaining_handler m t).time_estimated = some (m * 60) ∧
      (time_remaining_handler m t).progress = t.progress ∧
      (time_remaining_handler m t).printing_time = t.printing_time ∧
      (time_remaining_handler m t).flow = t.flow ∧
      (time_remaining_handler m t).speed = t.speed) ∧
    (m < 0 → time_remaining_handler m t = t) := by
  constructor
  · intro h
    simp [time_remaining_handler, h]
  · intro h
    simp [time_remaining_handler, not_le.mpr h]

theorem time_remaining_stores_seconds_witness :
    (time_remaining_handler 90 { }).time_estimated = some 5400 ∧
    time_remaining_handler (-3) { } = { } :=
  ⟨by
    have h := (time_remaining_stores_seconds 90 { }).1 (by norm_num)
    simpa using h.1,
   (time_remaining_stores_seconds (-3) { }).2 (by norm_num)⟩

/-- Claim C9: For every object of a Dictable subclass whose dunder members
are (recursively) never themselves Dictable instances — which holds of
`Telemetry`, `Event` and `PrinterInfo`, whose dunder members all come
from `object` — the dictionary produced by `to_dict` never contains a
key whose value is `None`, never contains dunder attribute names or
method members, and maps every attribute that is itself a Dictable to
its own recursively produced dictionary. -/
theorem dictable_to_dict_clean (members : List (String × PyVal)) :
    noNoneNoMethod (to_dict members) ∧
    (dunderClean members → noDunderKey (to_dict members)) ∧
    (∀ (name : String) (fields : List (String × PyVal)),
      (name, PyVal.obj fields) ∈ members →
      (name, PyVal.obj (to_dict fields)) ∈ to_dict members) :=
  ⟨to_dict_noNoneNoMethod members, to_dict_noDunderKey members,
    to_dict_maps_obj members⟩

theorem dictable_to_dict_clean_witness :
    noNoneNoMethod (to_dict eventObj) ∧
    noDunderKey (to_dict eventObj) ∧
    ("values", PyVal.obj (to_dict
        [("__class__", PyVal.prim "type"),
         ("sn", PyVal.vnone),
         ("state", PyVal.prim "READY"),
         ("to_dict", PyVal.method)])) ∈ to_dict eventObj :=
  ⟨(dictable_to_dict_clean eventObj).1,
   (dictable_to_dict_clean eventObj).2.1
     (by simp [eventObj, dunderClean, isDunder]),
   (dictable_to_dict_clean eventObj).2.2 "values" _ (by simp [eventObj])⟩

/-- Claim C10: The telemetry progress, flow and speed fields are only ever
assigned by their handlers when the parsed integer lies between 0 and
100 inclusive; for a parsed value outside that range the corresponding
field — indeed the whole record — is left unchanged; and every handler
that touches these fields (including the state-changed reset to 0 and
the fresh `Telemetry()` record) keeps each of them unset or within 0
to 100. -/
theorem percent_fields_in_range (v : Int) (t : Telemetry)
    (current last : States) :
    (0 ≤ v ∧ v ≤ 100 →
      (progress_handler v t).progress = some v ∧
      (flow_rate_handler v t).flow = some v ∧
      (speed_multiplier_handler v t).speed = some v) ∧
    (¬ (0 ≤ v ∧ v ≤ 100) →
      progress_handler v t = t ∧
      flow_rate_handler v t = t ∧
      speed_multiplier_handler v t = t) ∧
    (pctInvariant t →
      pctInvariant (progress_handler v t) ∧
      pctInvariant (flow_rate_handler v t) ∧
      pctInvariant (speed_multiplier_handler v t) ∧
      pctInvariant (state_changed_handler current last t) ∧
      pctInvariant (time_remaining_handler v t)) ∧
    pctInvariant { } := by
  refine ⟨?_, ?_, ?_, ?_⟩
  · intro h
    simp [progress_handler, flow_rate_handler, speed_multiplier_handler, h]
  · intro h
    simp [progress_handler, flow_rate_handler, speed_multiplier_handler, h]
  · intro ht
    obtain ⟨hp, hf, hs⟩ := ht
    refine ⟨?_, ?_, ?_, ?_, ?_⟩
    · by_cases h : 0 ≤ v ∧ v ≤ 100
      · simp only [progress_handler, if_pos h]
        exact ⟨h, hf, hs⟩
      · simp only [progress_handler, if_neg h]
        exact ⟨hp, hf, hs⟩
    · by_cases h : 0 ≤ v ∧ v ≤ 100
      · simp only [flow_rate_handler, if_pos h]
        exact ⟨hp, h, hs⟩
      · simp only [flow_rate_handler, if_neg h]
        exact ⟨hp, hf, hs⟩
    · by_cases h : 0 ≤ v ∧ v ≤ 100
      · simp only [speed_multiplier_handler, if_pos h]
        exact ⟨hp, hf, h⟩
      · simp only [speed_multiplier_handler, if_neg h]
        exact ⟨hp, hf, hs⟩
    · by_cases hc : current = States.PRINTING ∧
          (last = States.READY ∨ last = States.BUSY)
      · simp only [state_changed_handler, if_pos hc]
        exact ⟨⟨le_refl 0, by norm_num⟩, hf, hs⟩
      · simp only [state_changed_handler, if_neg hc]
        exact ⟨hp, hf, hs⟩
    · by_cases hm : v ≥ 0
      · simp only [time_remaining_handler, if_pos hm]
        exact ⟨hp, hf, hs⟩
      · simp only [time_remaining_handler, if_neg hm]
        exact ⟨hp, hf, hs⟩
  · exact ⟨trivial, trivial, trivial⟩

theorem percent_fields_in_range_witness :
    (progress_handler 42 { }).progress = some 42 ∧
    progress_handler 105 { } = { } ∧
    pctInvariant (progress_handler 42 { }) :=
  ⟨((percent_fields_in_range 42 { } States.READY States.READY).1
      (by norm_num)).1,
   ((percent_fields_in_range 105 { } States.READY States.READY).2.1
      (by norm_num)).1,
   (((percent_fields_in_range 42 { } States.READY States.READY).2.2.1
      (by simp [pctInvariant, pctOk])).1)⟩

/- ### Helper lemmas for the `Serial` transport -/

theorem renewLoop_events : ∀ (env : RenewEnv) (e : SerialEvt),
    e ∈ renewLoop env →
    e = SerialEvt.openAttempt true ∨ e = SerialEvt.openAttempt false ∨
    e = SerialEvt.logRetry ∨ e = SerialEvt.backoffSleep := by
  intro env
  induction env with
  | nil => intro e he; simp [renewLoop] at he
  | cons p rest ih =>
      obtain ⟨running, ok⟩ := p
      intro e he
      cases running
      · simp [renewLoop] at he
      · cases ok
        · simp only [renewLoop, Bool.not_true, Bool.false_eq_true, if_false,
            if_neg] at he
          rcases List.mem_cons.mp he with rfl | he
          · exact Or.inr (Or.inl rfl)
          rcases List.mem_cons.mp he with rfl | he
          · exact Or.inr (Or.inr (Or.inl rfl))
          rcases List.mem_cons.mp he with rfl | he
          · exact Or.inr (Or.inr (Or.inr rfl))
          · exact ih e he
        · simp only [renewLoop, Bool.not_true, Bool.false_eq_true, if_false,
            if_true] at he
          rcases List.mem_cons.mp he with rfl | he
          · exact Or.inl rfl
          · simp at he

theorem renew_events : ∀ (env : RenewEnv) (e : SerialEvt),
    e ∈ renew_serial_connection env →
    e = SerialEvt.failedSig ∨ e = SerialEvt.renewedSig ∨
    e = SerialEvt.openAttempt true ∨ e = SerialEvt.openAttempt false ∨
    e = SerialEvt.logRetry ∨ e = SerialEvt.backoffSleep := by
  intro env e he
  rcases List.mem_cons.mp he with rfl | he
  · exact Or.inl rfl
  rcases List.mem_append.mp he with he | he
  · exact Or.inr (Or.inr (renewLoop_events env e he))
  · rcases List.mem_singleton.mp he with rfl
    exact Or.inr (Or.inl rfl)

theorem renewLoop_no_renewed : ∀ env : RenewEnv,
    SerialEvt.renewedSig ∉ renewLoop env := by
  intro env h
  rcases renewLoop_events env _ h with h' | h' | h' | h' <;> cases h'

theorem renew_head_failed (env : RenewEnv) :
    (renew_serial_connection env).head? = some SerialEvt.failedSig := rfl

theorem renew_last_renewed (env : RenewEnv) :
    (renew_serial_connection env).getLast? = some SerialEvt.renewedSig := by
  unfold renew_serial_connection
  rw [← List.cons_append, List.getLast?_concat]

theorem renewLoop_backoff : ∀ (env : RenewEnv) (n : Nat),
    (renewLoop env)[n]? = some (SerialEvt.openAttempt false) →
    (renewLoop env)[n + 1]? = some SerialEvt.logRetry ∧
    (renewLoop env)[n + 2]? = some SerialEvt.backoffSleep := by
  intro env
  induction env with
  | nil => intro n h; simp [renewLoop] at h
  | cons p rest ih =>
      obtain ⟨running, ok⟩ := p
      intro n h
      cases running
      · simp [renewLoop] at h
      · cases ok
        · simp only [renewLoop, Bool.not_true, Bool.false_eq_true, if_false] at h ⊢
          match n with
          | 0 => simp
          | 1 => simp at h
          | 2 => simp at h
          | (m + 3) =>
              simp only [List.getElem?_cons_succ] at h ⊢
              exact ih m h
        · simp only [renewLoop, Bool.not_true, Bool.false_eq_true, if_false,
            if_true] at h
          match n with
          | 0 => simp at h
          | (m + 1) => simp at h

theorem renewLoop_success : ∀ env : RenewEnv, renewSucceeds env = true →
    (renewLoop env).getLast? = some (SerialEvt.openAttempt true) := by
  intro env
  induction env with
  | nil => intro h; simp [renewSucceeds] at h
  | cons p rest ih =>
      obtain ⟨running, ok⟩ := p
      intro h
      cases running
      · simp [renewSucceeds] at h
      · cases ok
        · have h' : renewSucceeds rest = true := by
            simpa [renewSucceeds] using h
          have ih' := ih h'
          cases hl : renewLoop rest with
          | nil => rw [hl] at ih'; simp at ih'
          | cons x xs =>
              simp only [renewLoop, Bool.not_true, Bool.false_eq_true,
                if_false, hl]
              rw [← hl]
              rw [List.getLast?_cons_cons, List.getLast?_cons_cons, hl,
                List.getLast?_cons_cons, ← hl, ← ih', hl]
        · simp [renewLoop]

theorem renewLoop_shutdown : ∀ env : RenewEnv, renewSucceeds env = false →
    SerialEvt.openAttempt true ∉ renewLoop env := by
  intro env
  induction env with
  | nil => intro _ h; simp [renewLoop] at h
  | cons p rest ih =>
      obtain ⟨running, ok⟩ := p
      intro h hmem
      cases running
      · simp [renewLoop] at hmem
      · cases ok
        · have h' : renewSucceeds rest = false := by
            simpa [renewSucceeds] using h
          simp only [renewLoop, Bool.not_true, Bool.false_eq_true,
            if_false] at hmem
          rcases List.mem_cons.mp hmem with heq | hmem
          · simp at heq
          rcases List.mem_cons.mp hmem with heq | hmem
          · cases heq
          rcases List.mem_cons.mp hmem with heq | hmem
          · cases heq
          · exact ih h' hmem
        · simp [renewSucceeds] at h

theorem writeLoop_not_sent : ∀ (message : List Nat) (env : WriteEnv),
    (writeLoop message env).2 = false ↔ writeStoppedByFlag env = true := by
  intro message env
  induction env with
  | nil => simp [writeLoop, writeStoppedByFlag]
  | cons p rest ih =>
      obtain ⟨running, ok, renv⟩ := p
      cases running
      · simp [writeLoop, writeStoppedByFlag]
      · cases ok
        · simpa [writeLoop, writeStoppedByFlag] using ih
        · simp [writeLoop, writeStoppedByFlag]

theorem writeLoop_sent_mem : ∀ (message : List Nat) (env : WriteEnv),
    (writeLoop message env).2 = true →
    SerialEvt.writeAttempt message true ∈ (writeLoop message env).1 := by
  intro message env
  induction env with
  | nil => intro h; simp [writeLoop] at h
  | cons p rest ih =>
      obtain ⟨running, ok, renv⟩ := p
      intro h
      cases running
      · simp [writeLoop] at h
      · cases ok
        · have h' : (writeLoop message rest).2 = true := by
            simpa [writeLoop] using h
          simp only [writeLoop, Bool.not_true, Bool.false_eq_true, if_false]
          refine List.mem_cons_of_mem _ (List.mem_cons_of_mem _ ?_)
          exact List.mem_append_right _ (ih h')
        · simp [writeLoop]

theorem writeLoop_same_message : ∀ (message : List Nat) (env : WriteEnv)
    (m : List Nat) (ok : Bool),
    SerialEvt.writeAttempt m ok ∈ (writeLoop message env).1 → m = message := by
  intro message env
  induction env with
  | nil => intro m ok h; simp [writeLoop] at h
  | cons p rest ih =>
      obtain ⟨running, wok, renv⟩ := p
      intro m ok h
      cases running
      · simp [writeLoop] at h
      · cases wok
        · simp only [writeLoop, Bool.not_true, Bool.false_eq_true,
            if_false] at h
          rcases List.mem_cons.mp h with heq | h
          · cases heq; rfl
          rcases List.mem_cons.mp h with heq | h
          · cases heq
          rcases List.mem_append.mp h with h | h
          · rcases renew_events renv _ h with h' | h' | h' | h' | h' | h' <;>
              cases h'
          · exact ih m ok h
        · simp only [writeLoop, Bool.not_true, Bool.false_eq_true, if_false,
            if_true] at h
          rcases List.mem_singleton.mp h with heq
          cases heq; rfl

theorem read_no_forward_from_renew : ∀ (renv : RenewEnv) (l : String),
    SerialEvt.forward l ∉ renew_serial_connection renv := by
  intro renv l h
  rcases renew_events renv _ h with h' | h' | h' | h' | h' | h' <;> cases h'

theorem reader_forward_source : ∀ (env : List (Bool × ReadOutcome)) (l : String),
    SerialEvt.forward l ∈ read_continually env →
    l ≠ "" ∧ ∃ s, (true, ReadOutcome.line s) ∈ env ∧ l = pyStrip s := by
  intro env
  induction env with
  | nil => intro l h; simp [read_continually] at h
  | cons p rest ih =>
      obtain ⟨running, outcome⟩ := p
      intro l h
      cases running
      · simp [read_continually] at h
      · simp only [read_continually, Bool.not_true, Bool.false_eq_true,
          if_false] at h
        rcases List.mem_append.mp h with h | h
        · cases outcome with
          | ioError renv =>
              simp only [readIter] at h
              rcases List.mem_cons.mp h with heq | h
              · cases heq
              rcases List.mem_cons.mp h with heq | h
              · cases heq
              rcases List.mem_append.mp h with h | h
              · exact absurd h (read_no_forward_from_renew renv l)
              · rcases List.mem_singleton.mp h with heq; cases heq
          | decodeError =>
              simp only [readIter] at h
              rcases List.mem_singleton.mp h with heq; cases heq
          | line s =>
              simp only [readIter] at h
              by_cases hs : pyStrip s = ""
              · rw [if_pos hs] at h; simp at h
              · rw [if_neg hs] at h
                rcases List.mem_singleton.mp h with heq
                cases heq
                exact ⟨hs, s, List.mem_cons_self _ _, rfl⟩
        · obtain ⟨hne, s, hmem, heq⟩ := ih l h
          exact ⟨hne, s, List.mem_cons_of_mem _ hmem, heq⟩

/-- Claim C2 — counterexample:  The claim "the `renewed` signal is emitted
only after the serial port has been successfully reopened" is false:
when the running flag is already cleared at the loop check (shutdown
during a reconnect), `_renew_serial_connection` leaves the retry loop
and sends `renewed_signal` although no reopen attempt succeeded (none
was even made). -/
theorem renewed_sent_without_reopen :
    renew_serial_connection [(false, true)] =
      [SerialEvt.failedSig, SerialEvt.renewedSig] ∧
    SerialEvt.renewedSig ∈ renew_serial_connection [(false, true)] ∧
    SerialEvt.openAttempt true ∉ renew_serial_connection [(false, true)] := by
  refine ⟨rfl, ?_, ?_⟩ <;> decide

/-- Claim C2 (amended):  Every transport reconnection cycle emits the
`failed` signal first, before any reopen attempt; the `renewed` signal
is emitted exactly once, as the last event — after a successful reopen
when the retry loop ended in success, and without any successful reopen
when the loop was left because the running flag was cleared for
shutdown; on each failed open attempt the loop logs, sleeps the fixed
backoff, and retries without bound until success or shutdown. -/
theorem renew_cycle_signal_order (env : RenewEnv) :
    (renew_serial_connection env).head? = some SerialEvt.failedSig ∧
    (renew_serial_connection env).getLast? = some SerialEvt.renewedSig ∧
    SerialEvt.renewedSig ∉ renewLoop env ∧
    (∀ n, (renewLoop env)[n]? = some (SerialEvt.openAttempt false) →
      (renewLoop env)[n + 1]? = some SerialEvt.logRetry ∧
      (renewLoop env)[n + 2]? = some SerialEvt.backoffSleep) ∧
    (renewSucceeds env = true →
      (renewLoop env).getLast? = some (SerialEvt.openAttempt true)) ∧
    (renewSucceeds env = false →
      SerialEvt.openAttempt true ∉ renewLoop env) ∧
    (∀ rest : RenewEnv, renewLoop ((true, false) :: rest) =
      SerialEvt.openAttempt false :: SerialEvt.logRetry ::
        SerialEvt.backoffSleep :: renewLoop rest) :=
  ⟨renew_head_failed env, renew_last_renewed env, renewLoop_no_renewed env,
   renewLoop_backoff env, renewLoop_success env, renewLoop_shutdown env,
   fun _ => rfl⟩

theorem renew_cycle_signal_order_witness :
    (renewLoop [(true, false), (true, true)])[1]? =
      some SerialEvt.logRetry ∧
    (renewLoop [(true, false), (true, true)]).getLast? =
      some (SerialEvt.openAttempt true) ∧
    SerialEvt.openAttempt true ∉ renewLoop [(false, true)] :=
  ⟨((renew_cycle_signal_order [(true, false), (true, true)]).2.2.2.1 0
      (by decide)).1,
   (renew_cycle_signal_order [(true, false), (true, true)]).2.2.2.2.1
     (by decide),
   (renew_cycle_signal_order [(false, true)]).2.2.2.2.2.1 (by decide)⟩

/-- Claim C3: For every byte payload, on an initialized transport
(`self.serial` set), `write` takes the write lock around the whole retry
loop and returns only after the payload has been accepted by the OS
(the result is `true` exactly when a write attempt succeeded) or after
the running flag was read false — in which case it returns without
having sent; a serial failure during the write triggers the full
reconnection cycle and the same payload is then retried (every write
attempt in the trace carries the original payload); the embedding is a
total function, reflecting that `write` catches `SerialException` and
never re-raises it. -/
theorem write_lock_retry_shutdown (message : List Nat) (serialSet : Bool)
    (env : WriteEnv) (hs : serialSet = true) :
    (write message serialSet env).1.head? = some SerialEvt.lockAcquire ∧
    (write message serialSet env).1.getLast? = some SerialEvt.lockRelease ∧
    ((write message serialSet env).2 = true →
      SerialEvt.writeAttempt message true ∈ (write message serialSet env).1) ∧
    ((write message serialSet env).2 = false →
      writeStoppedByFlag env = true) ∧
    (∀ (m : List Nat) (ok : Bool),
      SerialEvt.writeAttempt m ok ∈ (write message serialSet env).1 →
      m = message) ∧
    (∀ (renv : RenewEnv) (rest : WriteEnv),
      writeLoop message ((true, false, renv) :: rest) =
        (SerialEvt.writeAttempt message false :: SerialEvt.logWriteError ::
          (renew_serial_connection renv ++ (writeLoop message rest).1),
         (writeLoop message rest).2)) := by
  subst hs
  refine ⟨?_, ?_, ?_, ?_, ?_, ?_⟩
  · simp [write]
  · simp only [write, Bool.not_true, Bool.false_eq_true, if_false]
    rw [← List.cons_append, List.getLast?_concat]
  · intro h
    have h' : (writeLoop message env).2 = true := by
      simpa [write] using h
    simp only [write, Bool.not_true, Bool.false_eq_true, if_false]
    exact List.mem_cons_of_mem _
      (List.mem_append_left _ (writeLoop_sent_mem message env h'))
  · intro h
    have h' : (writeLoop message env).2 = false := by
      simpa [write] using h
    exact (writeLoop_not_sent message env).mp h'
  · intro m ok hmem
    simp only [write, Bool.not_true, Bool.false_eq_true, if_false] at hmem
    rcases List.mem_cons.mp hmem with heq | hmem
    · cases heq
    rcases List.mem_append.mp hmem with hmem | hmem
    · exact writeLoop_same_message message env m ok hmem
    · rcases List.mem_singleton.mp hmem with heq; cases heq
  · intro renv rest
    rcases hw : writeLoop message rest with ⟨t, s⟩
    simp [writeLoop, hw]

theorem write_lock_retry_shutdown_witness :
    SerialEvt.writeAttempt [77, 50, 52] true ∈
      (write [77, 50, 52] true
        [(true, false, [(true, true)]), (true, true, [])]).1 ∧
    writeStoppedByFlag
      ([(true, false, [(false, true)]), (false, true, [])] : WriteEnv) =
      true :=
  ⟨(write_lock_retry_shutdown [77, 50, 52] true
      [(true, false, [(true, true)]), (true, true, [])] rfl).2.2.1
      (by decide),
   (write_lock_retry_shutdown [77, 50, 52] true
      [(true, false, [(false, true)]), (false, true, [])] rfl).2.2.2.1
      (by decide)⟩

/-- Claim C5: For every iteration of the background reader loop while
running: a line that fails ASCII decoding is logged and dropped without
triggering reconnection; a serial I/O failure during the read triggers
the reconnection cycle while holding the write lock; a successfully
decoded line that is non-empty after stripping is forwarded (stripped)
to the line router, and a line that is empty after stripping is not
forwarded — every forwarded line in a full loop trace comes from a
non-empty stripped read line. -/
theorem reader_iteration_behavior (env : List (Bool × ReadOutcome)) :
    readIter ReadOutcome.decodeError = [SerialEvt.logDecodeError] ∧
    (∀ renv : RenewEnv, readIter (ReadOutcome.ioError renv) =
      SerialEvt.logReadError :: SerialEvt.lockAcquire ::
        (renew_serial_connection renv ++ [SerialEvt.lockRelease])) ∧
    (∀ s, pyStrip s ≠ "" →
      readIter (ReadOutcome.line s) = [SerialEvt.forward (pyStrip s)]) ∧
    (∀ s, pyStrip s = "" → readIter (ReadOutcome.line s) = []) ∧
    (∀ (o : ReadOutcome) (rest : List (Bool × ReadOutcome)),
      read_continually ((true, o) :: rest) =
        readIter o ++ read_continually rest) ∧
    (∀ l, SerialEvt.forward l ∈ read_continually env →
      l ≠ "" ∧ ∃ s, (true, ReadOutcome.line s) ∈ env ∧ l = pyStrip s) := by
  refine ⟨rfl, fun renv => rfl, ?_, ?_, ?_, reader_forward_source env⟩
  · intro s h
    simp [readIter, h]
  · intro s h
    simp [readIter, h]
  · intro o rest
    simp [read_continually]

theorem reader_iteration_behavior_witness :
    readIter (ReadOutcome.line " ok ") = [SerialEvt.forward (pyStrip " ok ")] ∧
    readIter (ReadOutcome.line "  ") = [] ∧
    ("ok" ≠ "" ∧ ∃ s, (true, ReadOutcome.line s) ∈
        [(true, ReadOutcome.line " ok ")] ∧ "ok" = pyStrip s) :=
  ⟨(reader_iteration_behavior []).2.2.1 " ok " (by decide),
   (reader_iteration_behavior []).2.2.2.1 "  " (by decide),
   (reader_iteration_behavior [(true, ReadOutcome.line " ok ")]).2.2.2.2.2
     "ok" (by decide)⟩

/-- Claim C7: After `Serial.stop` the running flag is false, the serial
handle is closed and the reader thread is joined; and every transport
loop — the write retry loop, the reader loop, the reconnect retry
loop — returns as soon as its next check reads the cleared flag, doing
no further I/O attempt (so each loop exits within one I/O or sleep
quantum of the stop request). -/
theorem stop_halts_transport (s : SerialState) :
    (stop s).running = false ∧
    (stop s).serialOpen = false ∧
    (stop s).readThreadJoined = true ∧
    (∀ (message : List Nat) (ok : Bool) (renv : RenewEnv) (rest : WriteEnv),
      writeLoop message ((false, ok, renv) :: rest) = ([], false)) ∧
    (∀ (o : ReadOutcome) (rest : List (Bool × ReadOutcome)),
      read_continually ((false, o) :: rest) = []) ∧
    (∀ (ok : Bool) (rest : RenewEnv), renewLoop ((false, ok) :: rest) = []) :=
  ⟨rfl, rfl, rfl, fun _ _ _ _ => rfl, fun _ _ => rfl, fun _ _ => rfl⟩

/-- Claim C1: During `start print`, if the `M23` load instruction's
completion match fails (no match against `OPEN_RESULT_REGEX`, or the
first capture group is empty), a rejection event is emitted and no
further step of the command is executed: no `M24` start instruction is
sent, the Printing state setter is not called, and the expectation is
still cleared at the end.  (`self.failed` and the surrounding
command-runner's scoped expectation release are modelled from the spec;
the `CommandHandler` base class is not in the sources.) -/
theorem load_failure_aborts_start_print (sm : StateManagerView)
    (command_id : Nat) (parts : List String) (m23 : M23Match)
    (h1 : sm.printing_state = none) (h2 : sm.override_state = none)
    (h3 : parts[1]? = some "SD Card") (h4 : openFailed m23 = true) :
    ∃ effs, run_command sm command_id parts m23 = some effs ∧
      (∃ reason, CmdEff.rejected reason ∈ effs) ∧
      (∀ g, CmdEff.doInstruction g ∉ effs) ∧
      CmdEff.setPrinting ∉ effs ∧
      effs.getLast? = some CmdEff.stopExpecting := by
  refine ⟨[CmdEff.expectChange command_id State.PRINTING,
    CmdEff.doMatchable ("M23 " ++ pyLower (joinParts (parts.drop 2))),
    CmdEff.rejected ("Wrong file name, or bad file. File name: " ++
      pyLower (joinParts (parts.drop 2))),
    CmdEff.stopExpecting], ?_, ?_, ?_, ?_, ?_⟩
  · simp [run_command, run_command_inner, h1, h2, h3, h4]
  · exact ⟨"Wrong file name, or bad file. File name: " ++
      pyLower (joinParts (parts.drop 2)), by simp⟩
  · intro g
    simp
  · simp
  · rfl

theorem load_failure_aborts_start_print_witness :
    ∃ effs, run_command ⟨none, none, State.READY⟩ 7
        ["/", "SD Card", "BOX.GCO"] none = some effs ∧
      (∃ reason, CmdEff.rejected reason ∈ effs) ∧
      (∀ g, CmdEff.doInstruction g ∉ effs) ∧
      CmdEff.setPrinting ∉ effs ∧
      effs.getLast? = some CmdEff.stopExpecting :=
  load_failure_aborts_start_print ⟨none, none, State.READY⟩ 7
    ["/", "SD Card", "BOX.GCO"] none rfl rfl rfl rfl

/-- Claim C4: `StartPrint._run_command` rejects immediately — emitting
only the rejection and the scoped expectation release, registering no
expectation and sending no instruction — when the printing sub-state is
non-null (failing with "Already printing") or, that being null, when the
override state is non-null (failing with a cannot-print-in-state
message); only when both are null does it register an expectation
targeting the Printing state with the command's id, as its very first
effect. -/
theorem start_print_rejects_before_expectation (sm : StateManagerView)
    (command_id : Nat) (parts : List String) (m23 : M23Match) :
    (sm.printing_state.isSome = true →
      run_command sm command_id parts m23 =
        some [CmdEff.rejected "Already printing", CmdEff.stopExpecting]) ∧
    (sm.printing_state = none → ∀ st, sm.override_state = some st →
      run_command sm command_id parts m23 =
        some [CmdEff.rejected
            ("Cannot print in " ++ st.describe ++ " state."),
          CmdEff.stopExpecting]) ∧
    (sm.printing_state = none → sm.override_state = none →
      ∀ x, parts[1]? = some x →
      ∃ effs, run_command sm command_id parts m23 = some effs ∧
        effs.head? = some (CmdEff.expectChange command_id State.PRINTING)) ∧
    (∀ (reason g : String) (c : Nat) (t : State),
      CmdEff.expectChange c t ∉
        [CmdEff.rejected reason, CmdEff.stopExpecting] ∧
      CmdEff.doMatchable g ∉
        [CmdEff.rejected reason, CmdEff.stopExpecting] ∧
      CmdEff.doInstruction g ∉
        [CmdEff.rejected reason, CmdEff.stopExpecting]) := by
  refine ⟨?_, ?_, ?_, ?_⟩
  · intro h
    simp [run_command, run_command_inner, h]
  · intro h1 st h2
    simp [run_command, run_command_inner, h1, h2, get_state]
  · intro h1 h2 x hx
    by_cases hsd : x = "SD Card"
    · subst hsd
      by_cases hf : openFailed m23 = true
      · exact ⟨[CmdEff.expectChange command_id State.PRINTING,
          CmdEff.doMatchable
            ("M23 " ++ pyLower (joinParts (parts.drop 2))),
          CmdEff.rejected ("Wrong file name, or bad file. File name: " ++
            pyLower (joinParts (parts.drop 2))),
          CmdEff.stopExpecting],
          by simp [run_command, run_command_inner, h1, h2, hx, hf], rfl⟩
      · have hf' : openFailed m23 = false := by simpa using hf
        exact ⟨[CmdEff.expectChange command_id State.PRINTING,
          CmdEff.doMatchable
            ("M23 " ++ pyLower (joinParts (parts.drop 2))),
          CmdEff.doInstruction "M24", CmdEff.setPrinting,
          CmdEff.stopExpecting],
          by simp [run_command, run_command_inner, h1, h2, hx, hf'], rfl⟩
    · exact ⟨[CmdEff.expectChange command_id State.PRINTING,
        CmdEff.filePrint (joinParts parts), CmdEff.setPrinting,
        CmdEff.stopExpecting],
        by simp [run_command, run_command_inner, h1, h2, hx, hsd], rfl⟩
  · intro reason g c t
    refine ⟨by simp, by simp, by simp⟩

theorem start_print_rejects_before_expectation_witness :
    run_command ⟨some "Serial printing", none, State.PRINTING⟩ 3
        ["/", "SD Card", "a.gco"] none =
      some [CmdEff.rejected "Already printing", CmdEff.stopExpecting] ∧
    run_command ⟨none, some State.ATTENTION, State.READY⟩ 3
        ["/", "SD Card", "a.gco"] none =
      some [CmdEff.rejected "Cannot print in State.ATTENTION state.",
        CmdEff.stopExpecting] ∧
    ∃ effs, run_command ⟨none, none, State.READY⟩ 3
        ["/", "SD Card", "a.gco"] (some [some "a.gco"]) = some effs ∧
      effs.head? = some (CmdEff.expectChange 3 State.PRINTING) :=
  ⟨(start_print_rejects_before_expectation
      ⟨some "Serial printing", none, State.PRINTING⟩ 3
      ["/", "SD Card", "a.gco"] none).1 rfl,
   (start_print_rejects_before_expectation
      ⟨none, some State.ATTENTION, State.READY⟩ 3
      ["/", "SD Card", "a.gco"] none).2.1 rfl State.ATTENTION rfl,
   (start_print_rejects_before_expectation
      ⟨none, none, State.READY⟩ 3
      ["/", "SD Card", "a.gco"] (some [some "a.gco"])).2.2.1 rfl rfl
      "SD Card" rfl⟩
